import Mathlib

/-!
Shallow embedding of the ark watchdog supervisor sources
(src/system_watchdog_monitor.c, src/watchdog_http_service.c).

Machine integers are modelled as Nat/Int with explicit reduction modulo
2 ^ 64 (unsigned long long) and 2 ^ 32 (uint32_t) where the C code can
wrap; `double` threshold arithmetic is modelled over ℚ (all constants
involved are exactly representable).  Fallible reads are Option-valued
inputs.  External watchdog-device calls are recorded as actions; their
success is an oracle Bool input.
-/

namespace Ark

/-- 2 ^ 64, the modulus of C unsigned long long arithmetic. -/
def W64 : Nat := 2 ^ 64

/-- 2 ^ 63, the signed long long sign boundary. -/
def W63 : Nat := 2 ^ 63

/-- 2 ^ 32, the modulus of C uint32_t arithmetic. -/
def W32 : Nat := 2 ^ 32

/-- Unsigned 64-bit subtraction a - b (wraparound), for a, b < W64. -/
def sub64 (a b : Nat) : Nat := (a + W64 - b) % W64

/-- Reinterpret an unsigned 64-bit value as a signed long long. -/
def toSigned (n : Nat) : Int := if n < W63 then (n : Int) else (n : Int) - (W64 : Int)

/-- Reinterpret a signed long long value as unsigned 64-bit. -/
def toUnsigned (i : Int) : Nat := (i % (W64 : Int)).toNat

/-- Convert a C int value to uint32_t (conversion wraps modulo 2 ^ 32). -/
def toU32 (i : Int) : Nat := (i % (W32 : Int)).toNat

/-- The WatchdogConfig struct of system_watchdog_monitor.c (g_config).
Timing fields are C ints, CPU thresholds are doubles (ℚ here), byte
thresholds are unsigned long long. -/
structure WatchdogConfig where
  watchdog_timeout : Int
  max_inactive_cycles : Int
  cpu_threshold : ℚ
  max_cpu_threshold : ℚ
  mem_threshold : Nat
  net_threshold : Nat
  cpu_check_interval : Int
  mem_check_interval : Int
  net_check_interval : Int
deriving DecidableEq, Repr

/-- The DEFAULT_* configuration values of system_watchdog_monitor.c. -/
def defaultConfig : WatchdogConfig :=
  { watchdog_timeout := 60
    max_inactive_cycles := 3
    cpu_threshold := 5
    max_cpu_threshold := 90
    mem_threshold := 1024
    net_threshold := 100
    cpu_check_interval := 1
    mem_check_interval := 2
    net_check_interval := 1 }

/-- The warnings that the configuration validation tail of parse_args can
emit on stderr (one constructor per fprintf site, in source order). -/
inductive Warn
  | timeoutTooLow
  | inactiveTooLow
  | maxCpuNotAboveMin
  | maxCpuTooHigh
  | cpuIntervalTooLow
  | memIntervalTooLow
  | netIntervalTooLow
deriving DecidableEq, Repr

/-- Validation step at lines 707-710: a watchdog timeout below 10
seconds is raised to 10 with a warning. -/
def clamp_watchdog_timeout (p : WatchdogConfig × List Warn) : WatchdogConfig × List Warn :=
  if p.1.watchdog_timeout < 10 then
    ({ p.1 with watchdog_timeout := 10 }, p.2 ++ [Warn.timeoutTooLow])
  else p

/-- Validation step at lines 711-714: max inactive cycles below 1 is
raised to 1 with a warning. -/
def clamp_max_inactive (p : WatchdogConfig × List Warn) : WatchdogConfig × List Warn :=
  if p.1.max_inactive_cycles < 1 then
    ({ p.1 with max_inactive_cycles := 1 }, p.2 ++ [Warn.inactiveTooLow])
  else p

/-- Validation step at lines 715-719: a max CPU threshold ≤ the low CPU
threshold is raised to the low threshold + 50 with a warning. -/
def raise_max_cpu (p : WatchdogConfig × List Warn) : WatchdogConfig × List Warn :=
  if p.1.max_cpu_threshold ≤ p.1.cpu_threshold then
    ({ p.1 with max_cpu_threshold := p.1.cpu_threshold + 50 }, p.2 ++ [Warn.maxCpuNotAboveMin])
  else p

/-- Validation step at lines 720-723: a max CPU threshold above 100 is
clamped to 100 with a warning. -/
def clamp_max_cpu_100 (p : WatchdogConfig × List Warn) : WatchdogConfig × List Warn :=
  if p.1.max_cpu_threshold > 100 then
    ({ p.1 with max_cpu_threshold := 100 }, p.2 ++ [Warn.maxCpuTooHigh])
  else p

/-- Validation step at lines 725-728: a CPU check interval below 1 is
raised to 1 with a warning. -/
def clamp_cpu_interval (p : WatchdogConfig × List Warn) : WatchdogConfig × List Warn :=
  if p.1.cpu_check_interval < 1 then
    ({ p.1 with cpu_check_interval := 1 }, p.2 ++ [Warn.cpuIntervalTooLow])
  else p

/-- Validation step at lines 729-732: a memory check interval below 1 is
raised to 1 with a warning. -/
def clamp_mem_interval (p : WatchdogConfig × List Warn) : WatchdogConfig × List Warn :=
  if p.1.mem_check_interval < 1 then
    ({ p.1 with mem_check_interval := 1 }, p.2 ++ [Warn.memIntervalTooLow])
  else p

/-- Validation step at lines 733-736: a network check interval below 1
is raised to 1 with a warning. -/
def clamp_net_interval (p : WatchdogConfig × List Warn) : WatchdogConfig × List Warn :=
  if p.1.net_check_interval < 1 then
    ({ p.1 with net_check_interval := 1 }, p.2 ++ [Warn.netIntervalTooLow])
  else p

/-- The validation tail of parse_args (system_watchdog_monitor.c lines
706-737): the seven clamp steps applied in source order, accumulating
the warnings emitted. -/
def validateConfig (c0 : WatchdogConfig) : WatchdogConfig × List Warn :=
  clamp_net_interval (clamp_mem_interval (clamp_cpu_interval
    (clamp_max_cpu_100 (raise_max_cpu (clamp_max_inactive
      (clamp_watchdog_timeout (c0, [])))))))

/-- A configuration whose max CPU threshold (50) is not above its low
CPU threshold (60): the concrete input of the validation
counterexample. -/
def badCpuConfig : WatchdogConfig :=
  { defaultConfig with cpu_threshold := 60, max_cpu_threshold := 50 }

/-- The eight unsigned tick fields of the aggregate cpu line of
/proc/stat, as parsed by get_cpu_usage. -/
structure CpuTicks where
  user : Nat
  nice : Nat
  system : Nat
  idle : Nat
  iowait : Nat
  irq : Nat
  softirq : Nat
  steal : Nat
deriving DecidableEq, Repr

/-- total = user + nice + system + idle + iowait + irq + softirq + steal,
in unsigned long long arithmetic. -/
def CpuTicks.total (t : CpuTicks) : Nat :=
  (t.user + t.nice + t.system + t.idle + t.iowait + t.irq + t.softirq + t.steal) % W64

/-- get_cpu_usage (system_watchdog_monitor.c lines 177-215), given the
stored g_prev_stats.cpu_total / cpu_idle and a successfully parsed
reading.  Returns (cpu_percent, new cpu_total, new cpu_idle); the
percentage is 0.0 on the baseline-establishing first read
(cpu_total = 0) and when total_diff = 0. -/
def get_cpu_usage (prev_total prev_idle : Nat) (t : CpuTicks) : ℚ × Nat × Nat :=
  let total := t.total
  let idle := t.idle % W64
  let pct : ℚ :=
    if prev_total > 0 then
      let total_diff := sub64 total prev_total
      let idle_diff := sub64 idle prev_idle
      if total_diff > 0 then
        100 * ((sub64 total_diff idle_diff : Nat) : ℚ) / ((total_diff : Nat) : ℚ)
      else 0
    else 0
  (pct, total, idle)

/-- The classification of a computed CPU busy percentage in
check_system_activity (lines 291-311): critical is checked first with a
strict comparison against max_cpu_threshold, then activity with a strict
comparison against cpu_threshold. -/
inductive CpuVerdict
  | critical
  | active
  | inactive
deriving DecidableEq, Repr

/-- The if / else-if ladder of the CPU branch of check_system_activity. -/
def classify_cpu (cfg : WatchdogConfig) (pct : ℚ) : CpuVerdict :=
  if pct > cfg.max_cpu_threshold then CpuVerdict.critical
  else if pct > cfg.cpu_threshold then CpuVerdict.active
  else CpuVerdict.inactive

/-- The mutable monitor state owned by the supervisor: g_prev_stats, the
static prev_mem_available local of the memory branch, g_inactive_cycles,
g_activity_detected and g_watchdog_feeds. -/
structure MonitorState where
  cpu_total : Nat
  cpu_idle : Nat
  net_rx_bytes : Nat
  net_tx_bytes : Nat
  prev_mem_available : Int
  inactive_cycles : Int
  activity_flag : Bool
  watchdog_feeds : Nat
deriving DecidableEq, Repr

/-- The startup monitor state: g_prev_stats = {0}, prev_mem_available = 0,
g_inactive_cycles = 0, g_activity_detected = 0, g_watchdog_feeds = 0. -/
def initMonitorState : MonitorState :=
  { cpu_total := 0
    cpu_idle := 0
    net_rx_bytes := 0
    net_tx_bytes := 0
    prev_mem_available := 0
    inactive_cycles := 0
    activity_flag := false
    watchdog_feeds := 0 }

/-- A timer event handed to check_system_activity, tagged by which timer
fd fired, carrying the counter read (none = read failure, the branch is
skipped). -/
inductive TimerEvent
  | cpu (r : Option CpuTicks)
  | mem (r : Option Nat)
  | net (r : Option (Nat × Nat))
deriving DecidableEq, Repr

/-- Calls issued to the SUSI watchdog device. -/
inductive Action
  | trigger
  | stopWdog
deriving DecidableEq, Repr

/-- The per-resource evaluation part of check_system_activity (lines
291-350): updates the stored baselines and computes the
(activity_detected, cpu_critical) flags.
CPU: percentage from get_cpu_usage, classified by classify_cpu.
Memory: signed long long mem_diff = mem_available - prev_mem_available,
active when llabs(mem_diff) > mem_threshold (no baseline guard: the first
read is compared against the initial prev_mem_available = 0).
Network: deltas only evaluated when both stored cumulative counters are
nonzero; unsigned subtraction, active when either delta exceeds
net_threshold. -/
def evaluate_activity (cfg : WatchdogConfig) (st : MonitorState) (ev : TimerEvent) :
    MonitorState × Bool × Bool :=
  match ev with
  | TimerEvent.cpu none => (st, false, false)
  | TimerEvent.cpu (some t) =>
      let r := get_cpu_usage st.cpu_total st.cpu_idle t
      let st := { st with cpu_total := r.2.1, cpu_idle := r.2.2 }
      match classify_cpu cfg r.1 with
      | CpuVerdict.critical => (st, false, true)
      | CpuVerdict.active => (st, true, false)
      | CpuVerdict.inactive => (st, false, false)
  | TimerEvent.mem none => (st, false, false)
  | TimerEvent.mem (some m) =>
      let mem_available := m % W64
      let mem_diff : Int := toSigned (sub64 mem_available (toUnsigned st.prev_mem_available))
      let active := mem_diff.natAbs > cfg.mem_threshold
      let st := { st with prev_mem_available := toSigned mem_available }
      (st, active, false)
  | TimerEvent.net none => (st, false, false)
  | TimerEvent.net (some p) =>
      let rx := p.1 % W64
      let tx := p.2 % W64
      let active :=
        if 0 < st.net_rx_bytes ∧ 0 < st.net_tx_bytes then
          sub64 rx st.net_rx_bytes > cfg.net_threshold ∨
          sub64 tx st.net_tx_bytes > cfg.net_threshold
        else false
      let st := { st with net_rx_bytes := rx, net_tx_bytes := tx }
      (st, active, false)

/-- check_system_activity (lines 275-389).  After the per-resource
evaluation: on activity, g_activity_detected is set, g_inactive_cycles is
reset to 0 and a SusiWDogTrigger call is issued immediately (feedOk is
the device outcome; on failure the return code is -2).  The final return
is -1 on cpu_critical, else activity_detected (1 or 0). -/
def check_system_activity (cfg : WatchdogConfig) (st : MonitorState)
    (ev : TimerEvent) (feedOk : Bool) : MonitorState × List Action × Int :=
  let e := evaluate_activity cfg st ev
  let st := e.1
  let activity_detected := e.2.1
  let cpu_critical := e.2.2
  if activity_detected then
    let st := { st with activity_flag := true, inactive_cycles := 0 }
    if feedOk then
      let st := { st with watchdog_feeds := st.watchdog_feeds + 1 }
      (st, [Action.trigger], if cpu_critical then -1 else 1)
    else
      (st, [Action.trigger], -2)
  else
    (st, [], if cpu_critical then -1 else 0)

/-- The supervisor loop state of main: the monitor state, g_running, the
last_grace_feed local and the static last_inactive_check local of the
timeout branch.  Times are nonnegative time_t values in seconds. -/
structure LoopState where
  mon : MonitorState
  g_running : Bool
  last_grace_feed : Nat
  last_inactive_check : Nat
deriving DecidableEq, Repr

/-- Loop state at entry to the while loop: monitor state fresh,
g_running = 1, last_grace_feed = 0, last_inactive_check = 0. -/
def initLoopState : LoopState :=
  { mon := initMonitorState
    g_running := true
    last_grace_feed := 0
    last_inactive_check := 0 }

/-- signal_handler (lines 119-123): a SIGINT/SIGTERM clears g_running. -/
def signal_handler (st : LoopState) : LoopState := { st with g_running := false }

/-- One wake-up of the epoll loop in main.  A `timer` event is one timer
fd firing (handled by check_system_activity with the outcome of a feed
attempt, if any, given by feedOk); a `timeout` event is epoll_wait
returning 0 events at time now, with feedOk the outcome of a grace feed
attempt, if one is made; `sigTerm` is a termination signal observed at
the top of the loop. -/
inductive LoopEvent
  | timer (ev : TimerEvent) (feedOk : Bool)
  | timeout (now : Nat) (feedOk : Bool)
  | sigTerm
deriving DecidableEq, Repr

/-- One iteration of the while (g_running) loop of main (lines 815-901).
When g_running is already clear the loop body is not entered and nothing
happens.  Timer events delegate to check_system_activity; return codes
-1 (critical) and -2 (feed error) clear g_running.  The timeout branch
(lines 858-900) increments g_inactive_cycles once per
watchdog_timeout / 4 seconds while no activity was flagged, feeds the
watchdog on the watchdog_timeout / 2 grace cadence while the counter is
still ≤ max_inactive_cycles and clears g_running (without feeding) as
soon as the counter exceeds it; when activity was flagged it only resets
the flag. -/
def loop_step (cfg : WatchdogConfig) (st : LoopState) (ev : LoopEvent) :
    LoopState × List Action :=
  if st.g_running = false then (st, [])
  else
    match ev with
    | LoopEvent.sigTerm => (signal_handler st, [])
    | LoopEvent.timer tev feedOk =>
        let r := check_system_activity cfg st.mon tev feedOk
        let st := { st with mon := r.1 }
        if r.2.2 = -1 ∨ r.2.2 = -2 then ({ st with g_running := false }, r.2.1)
        else (st, r.2.1)
    | LoopEvent.timeout now feedOk =>
        if st.mon.activity_flag = false then
          if now - st.last_inactive_check ≥ cfg.watchdog_timeout.toNat / 4 then
            let st := { st with
              mon := { st.mon with inactive_cycles := st.mon.inactive_cycles + 1 }
              last_inactive_check := now }
            if st.mon.inactive_cycles ≤ cfg.max_inactive_cycles then
              if now - st.last_grace_feed ≥ cfg.watchdog_timeout.toNat / 2 then
                if feedOk then
                  ({ st with
                      mon := { st.mon with watchdog_feeds := st.mon.watchdog_feeds + 1 }
                      last_grace_feed := now }, [Action.trigger])
                else
                  ({ st with g_running := false }, [Action.trigger])
              else (st, [])
            else ({ st with g_running := false }, [])
          else (st, [])
        else ({ st with mon := { st.mon with activity_flag := false } }, [])

/-- Folding the loop over a sequence of wake-ups, accumulating the
watchdog-device calls issued. -/
def run_loop (cfg : WatchdogConfig) (st0 : LoopState) (evs : List LoopEvent) :
    LoopState × List Action :=
  evs.foldl (fun p ev =>
    let r := loop_step cfg p.1 ev
    (r.1, p.2 ++ r.2)) (st0, [])

/-- The cleanup after the loop (lines 903-910): only when g_running is
still set (which the loop leaves true only on an epoll_wait failure)
does main call cleanup_susi_watchdog, which issues SusiWDogStop;
otherwise the watchdog is deliberately left armed. -/
def main_cleanup (st : LoopState) : List Action :=
  if st.g_running then [Action.stopWdog] else []

/-- main always ends with return 0 (line 918). -/
def main_return_code : Int := 0

/-! HTTP control surface: watchdog_http_service.c. -/

/-- The module-level watchdog configuration and running flag of
watchdog_http_service.c (delayTime, eventTime, resetTime, eventType are
uint32_t; watchdogRunning is a bool). -/
structure HttpState where
  delayTime : Nat
  eventTime : Nat
  resetTime : Nat
  eventType : Nat
  watchdogRunning : Bool
deriving DecidableEq, Repr

/-- The DEFAULT_* values of watchdog_http_service.c. -/
def initHttpState : HttpState :=
  { delayTime := 10000
    eventTime := 5000
    resetTime := 1000
    eventType := 0
    watchdogRunning := false }

/-- The optional delay/event/reset/type query parameters, already run
through atoi (C int values). -/
structure StartParams where
  delay : Option Int
  event : Option Int
  reset : Option Int
  type : Option Int
deriving DecidableEq, Repr

/-- No query parameters supplied. -/
def noParams : StartParams :=
  { delay := none, event := none, reset := none, type := none }

/-- Storing one optional parameter into a uint32_t global: present
parameters overwrite (converted to uint32_t), absent ones keep the old
value. -/
def updParam (old : Nat) (p : Option Int) : Nat :=
  match p with
  | some v => toU32 v
  | none => old

/-- Response bodies produced by requestHandler. -/
inductive HttpBody
  | htmlPage
  | statusJson
  | infoJson
  | jsonError (msg : String)
  | jsonStarted (delay event reset type : Nat)
  | jsonConfigured (delay event reset type : Nat)
  | jsonTriggered
  | jsonStopped
deriving DecidableEq, Repr

/-- An HTTP response: the status code actually queued and the body. -/
structure HttpResponse where
  status : Nat
  body : HttpBody
deriving DecidableEq, Repr

/-- requestHandler (watchdog_http_service.c lines 50-279), as a pure
routing function over the service state.  deviceOk is the outcome of the
SUSI device call made by the branch, if any.

Note on status codes: the unknown-endpoint branches assign
MHD_HTTP_NOT_FOUND and the unknown-method branch assigns
MHD_HTTP_METHOD_NOT_ALLOWED to the local ret, but ret is then
overwritten at line 263, where every JSON response is queued with
MHD_queue_response(connection, MHD_HTTP_OK, response); the HTML page is
likewise queued with MHD_HTTP_OK at line 150.  So every response this
function produces carries status 200. -/
def requestHandler (st : HttpState) (method url : String)
    (params : StartParams) (deviceOk : Bool) : HttpState × HttpResponse :=
  if method = "GET" then
    if url = "/api/status" then (st, ⟨200, HttpBody.statusJson⟩)
    else if url = "/api/info" then (st, ⟨200, HttpBody.infoJson⟩)
    else if url = "/" ∨ url = "/index.html" then (st, ⟨200, HttpBody.htmlPage⟩)
    else (st, ⟨200, HttpBody.jsonError "Unknown endpoint"⟩)
  else if method = "POST" then
    if url = "/api/start" then
      if st.watchdogRunning then
        (st, ⟨200, HttpBody.jsonError "Watchdog is already running"⟩)
      else
        let st := { st with
          delayTime := updParam st.delayTime params.delay
          eventTime := updParam st.eventTime params.event
          resetTime := updParam st.resetTime params.reset
          eventType := updParam st.eventType params.type }
        if deviceOk then
          ({ st with watchdogRunning := true },
           ⟨200, HttpBody.jsonStarted st.delayTime st.eventTime st.resetTime st.eventType⟩)
        else
          (st, ⟨200, HttpBody.jsonError "Failed to start watchdog"⟩)
    else if url = "/api/trigger" then
      if st.watchdogRunning = false then
        (st, ⟨200, HttpBody.jsonError "Watchdog is not running"⟩)
      else if deviceOk then (st, ⟨200, HttpBody.jsonTriggered⟩)
      else (st, ⟨200, HttpBody.jsonError "Failed to trigger watchdog"⟩)
    else if url = "/api/stop" then
      if st.watchdogRunning = false then
        (st, ⟨200, HttpBody.jsonError "Watchdog is not running"⟩)
      else if deviceOk then
        ({ st with watchdogRunning := false }, ⟨200, HttpBody.jsonStopped⟩)
      else (st, ⟨200, HttpBody.jsonError "Failed to stop watchdog"⟩)
    else if url = "/api/configure" then
      if st.watchdogRunning then
        (st, ⟨200, HttpBody.jsonError "Cannot configure watchdog while running. Stop it first."⟩)
      else
        let st := { st with
          delayTime := updParam st.delayTime params.delay
          eventTime := updParam st.eventTime params.event
          resetTime := updParam st.resetTime params.reset
          eventType := updParam st.eventType params.type }
        (st, ⟨200, HttpBody.jsonConfigured st.delayTime st.eventTime st.resetTime st.eventType⟩)
    else (st, ⟨200, HttpBody.jsonError "Unknown endpoint"⟩)
  else (st, ⟨200, HttpBody.jsonError "Method not allowed"⟩)

/-! Helper lemmas about 64-bit arithmetic. -/

theorem sub64_eq_of_le {a b : Nat} (hb : b ≤ a) (ha : a < W64) : sub64 a b = a - b := by
  unfold sub64
  have h1 : a + W64 - b = (a - b) + W64 := by omega
  rw [h1, Nat.add_mod_right, Nat.mod_eq_of_lt (by omega)]

theorem sub64_eq_of_lt {a b : Nat} (hab : a < b) (hb : b ≤ W64) :
    sub64 a b = W64 - (b - a) := by
  have hW : 0 < W64 := by norm_num [W64]
  unfold sub64
  have h1 : a + W64 - b = W64 - (b - a) := by omega
  rw [h1]
  exact Nat.mod_eq_of_lt (by omega)

theorem total_lt_W64 (t : CpuTicks) : t.total < W64 := by
  unfold CpuTicks.total
  exact Nat.mod_lt _ (by norm_num [W64])

theorem W63_lt_W64 : W63 < W64 := by norm_num [W63, W64]

/-- C1 counterexample: in the startup state the very first successful
memory read (MemAvailable = 2000, default threshold 1024) is compared
against the implicit zero baseline, is judged active, issues a
SusiWDogTrigger call and returns 1 — refuting the claim that the first
read of every resource is inert. -/
theorem C1_first_memory_read_feeds :
    (check_system_activity defaultConfig initMonitorState
        (TimerEvent.mem (some 2000)) true).2.1 = [Action.trigger] ∧
    (check_system_activity defaultConfig initMonitorState
        (TimerEvent.mem (some 2000)) true).2.2 = 1 ∧
    (check_system_activity defaultConfig initMonitorState
        (TimerEvent.mem (some 2000)) true).1.activity_flag = true := by
  decide

/-- C1 amended: the first successful CPU read (stored cpu_total still 0)
and the first successful network read (stored rx counter still 0) are
inert — no trigger call, return 0, inactivity counter untouched —
regardless of the values read (for CPU given the configured thresholds
are nonnegative, since the baseline read computes 0%).  The memory
branch however has no baseline guard: its first read feeds the watchdog
and zeroes the inactivity counter whenever the value read exceeds the
memory threshold. -/
theorem C1_first_read_baseline_amended (cfg : WatchdogConfig) (st : MonitorState)
    (t : CpuTicks) (rx tx m : Nat) (feedOk : Bool)
    (hthr : 0 ≤ cfg.cpu_threshold) (hmax : 0 ≤ cfg.max_cpu_threshold)
    (hcpu : st.cpu_total = 0) (hnet : st.net_rx_bytes = 0)
    (hmem : st.prev_mem_available = 0) (hmW : m < W63) (hmt : cfg.mem_threshold < m) :
    ((check_system_activity cfg st (TimerEvent.cpu (some t)) feedOk).2 = ([], 0)) ∧
    ((check_system_activity cfg st (TimerEvent.cpu (some t)) feedOk).1.inactive_cycles
        = st.inactive_cycles) ∧
    ((check_system_activity cfg st (TimerEvent.net (some (rx, tx))) feedOk).2 = ([], 0)) ∧
    ((check_system_activity cfg st (TimerEvent.net (some (rx, tx))) feedOk).1.inactive_cycles
        = st.inactive_cycles) ∧
    ((check_system_activity cfg st (TimerEvent.mem (some m)) feedOk).2.1
        = [Action.trigger]) ∧
    ((check_system_activity cfg st (TimerEvent.mem (some m)) feedOk).1.inactive_cycles
        = 0) := by
  have hpct : (get_cpu_usage st.cpu_total st.cpu_idle t).1 = 0 := by
    rw [hcpu]; simp [get_cpu_usage]
  have hcls : classify_cpu cfg (get_cpu_usage st.cpu_total st.cpu_idle t).1
      = CpuVerdict.inactive := by
    rw [hpct]
    unfold classify_cpu
    rw [if_neg (not_lt.mpr hmax), if_neg (not_lt.mpr hthr)]
  have hmW64 : m < W64 := lt_trans hmW W63_lt_W64
  have hmemDiff : toSigned (sub64 (m % W64) (toUnsigned st.prev_mem_available)) = (m : Int) := by
    rw [hmem]
    have h0 : toUnsigned 0 = 0 := by simp [toUnsigned]
    rw [h0, Nat.mod_eq_of_lt hmW64, sub64_eq_of_le (Nat.zero_le m) hmW64, Nat.sub_zero]
    unfold toSigned
    rw [if_pos hmW]
  refine ⟨?_, ?_, ?_, ?_, ?_, ?_⟩
  · simp [check_system_activity, evaluate_activity, hcls]
  · simp [check_system_activity, evaluate_activity, hcls]
  · simp [check_system_activity, evaluate_activity, hnet]
  · simp [check_system_activity, evaluate_activity, hnet]
  · cases feedOk <;> simp [check_system_activity, evaluate_activity, hmemDiff, hmt]
  · cases feedOk <;> simp [check_system_activity, evaluate_activity, hmemDiff, hmt]

/-- C1 witness: the amended statement instantiated at the startup state
with the default configuration, a concrete tick reading, a concrete
network reading and MemAvailable = 2000. -/
theorem C1_first_read_baseline_amended_witness :
    ((check_system_activity defaultConfig initMonitorState
        (TimerEvent.cpu (some ⟨100, 0, 50, 800, 0, 0, 0, 0⟩)) true).2 = ([], 0)) ∧
    ((check_system_activity defaultConfig initMonitorState
        (TimerEvent.cpu (some ⟨100, 0, 50, 800, 0, 0, 0, 0⟩)) true).1.inactive_cycles
        = initMonitorState.inactive_cycles) ∧
    ((check_system_activity defaultConfig initMonitorState
        (TimerEvent.net (some (5000, 7000))) true).2 = ([], 0)) ∧
    ((check_system_activity defaultConfig initMonitorState
        (TimerEvent.net (some (5000, 7000))) true).1.inactive_cycles
        = initMonitorState.inactive_cycles) ∧
    ((check_system_activity defaultConfig initMonitorState
        (TimerEvent.mem (some 2000)) true).2.1 = [Action.trigger]) ∧
    ((check_system_activity defaultConfig initMonitorState
        (TimerEvent.mem (some 2000)) true).1.inactive_cycles = 0) :=
  C1_first_read_baseline_amended defaultConfig initMonitorState
    ⟨100, 0, 50, 800, 0, 0, 0, 0⟩ 5000 7000 2000 true
    (by norm_num [defaultConfig]) (by norm_num [defaultConfig])
    rfl rfl rfl (by norm_num [W63]) (by norm_num [defaultConfig])

/-- C2: a termination signal received in the Running loop clears
g_running, so the post-loop cleanup takes the else branch (line 907) —
main never calls cleanup_susi_watchdog, no SusiWDogStop is issued, and
the process still returns 0.  This contradicts the claimed clean
Shutdown (stop the hardware watchdog, best effort) on operator
interrupt: the watchdog is left armed and will reboot the host. -/
theorem C2_signal_leaves_watchdog_armed :
    (run_loop defaultConfig initLoopState [LoopEvent.sigTerm]).1.g_running = false ∧
    main_cleanup (run_loop defaultConfig initLoopState [LoopEvent.sigTerm]).1 = [] ∧
    Action.stopWdog ∉ (run_loop defaultConfig initLoopState [LoopEvent.sigTerm]).2 ∧
    main_return_code = 0 := by
  decide

/-- C4 counterexample: with the default thresholds (low 5, high 90) a
busy percentage of exactly 90 — exactly the high threshold — is
classified Active, not Critical, because the critical comparison at line
295 is strict. -/
theorem C4_busy_at_high_is_active :
    classify_cpu defaultConfig 90 = CpuVerdict.active ∧
    CpuVerdict.active ≠ CpuVerdict.critical := by
  decide

/-- C4 amended: for thresholds with low < high, a busy percentage
exactly equal to the high threshold is classified Active (it fails the
strict critical comparison and passes the low-threshold comparison),
while any percentage strictly above the high threshold is Critical; the
critical check comes first and short-circuits the activity check. -/
theorem C4_critical_strictly_above_high (cfg : WatchdogConfig)
    (h : cfg.cpu_threshold < cfg.max_cpu_threshold) :
    classify_cpu cfg cfg.max_cpu_threshold = CpuVerdict.active ∧
    ∀ pct : ℚ, cfg.max_cpu_threshold < pct →
      classify_cpu cfg pct = CpuVerdict.critical := by
  constructor
  · unfold classify_cpu
    rw [if_neg (lt_irrefl cfg.max_cpu_threshold), if_pos h]
  · intro pct hp
    unfold classify_cpu
    rw [if_pos hp]

/-- C4 witness: the amended statement at the default thresholds (5, 90),
with the critical conclusion instantiated at 95%. -/
theorem C4_critical_strictly_above_high_witness :
    classify_cpu defaultConfig defaultConfig.max_cpu_threshold = CpuVerdict.active ∧
    classify_cpu defaultConfig 95 = CpuVerdict.critical :=
  ⟨(C4_critical_strictly_above_high defaultConfig (by norm_num [defaultConfig])).1,
   (C4_critical_strictly_above_high defaultConfig (by norm_num [defaultConfig])).2 95
     (by norm_num [defaultConfig])⟩

/-- C5 counterexample: with stored network counters rx = tx = 1000, a
fresh read of rx = 0 (a counter reset, i.e. a decrease) is not treated
as a new baseline: the unsigned subtraction wraps to 2^64 - 1000, which
exceeds the default 100-byte threshold, so the evaluation reports
activity and check_system_activity issues a trigger call. -/
theorem C5_network_decrease_spurious_active :
    (evaluate_activity defaultConfig
        { initMonitorState with net_rx_bytes := 1000, net_tx_bytes := 1000 }
        (TimerEvent.net (some (0, 1000)))).2.1 = true ∧
    (check_system_activity defaultConfig
        { initMonitorState with net_rx_bytes := 1000, net_tx_bytes := 1000 }
        (TimerEvent.net (some (0, 1000))) true).2.1 = [Action.trigger] := by
  decide

/-- C5 amended: a decrease in a monotonic counter is not re-baselined.
For network, once both stored counters are nonzero, a decreased rx
reading produces the wrapped delta 2^64 - (old - new) and an Active
verdict whenever that wrapped delta exceeds the threshold.  For CPU, a
decreased total-tick reading likewise produces the wrapped total
difference 2^64 - (old - new), which is nonzero, so the percentage is
computed from the wrapped deltas instead of being reset to a baseline. -/
theorem C5_wraparound_delta_amended :
    (∀ (cfg : WatchdogConfig) (st : MonitorState) (rx tx : Nat),
      0 < st.net_rx_bytes → 0 < st.net_tx_bytes → st.net_rx_bytes < W64 →
      rx < st.net_rx_bytes →
      cfg.net_threshold < W64 - (st.net_rx_bytes - rx) →
      (evaluate_activity cfg st (TimerEvent.net (some (rx, tx)))).2.1 = true) ∧
    (∀ (prev_total prev_idle : Nat) (t : CpuTicks),
      0 < prev_total → prev_total < W64 → t.total < prev_total →
      (get_cpu_usage prev_total prev_idle t).1 =
        100 * (((sub64 (W64 - (prev_total - t.total)) (sub64 (t.idle % W64) prev_idle)
          : Nat) : ℚ)) / (((W64 - (prev_total - t.total) : Nat) : ℚ))) := by
  constructor
  · intro cfg st rx tx hrx htx hW hdec hth
    have hrxW64 : rx < W64 := lt_trans hdec hW
    have hmod : rx % W64 = rx := Nat.mod_eq_of_lt hrxW64
    have hsub : sub64 (rx % W64) st.net_rx_bytes = W64 - (st.net_rx_bytes - rx) := by
      rw [hmod]
      exact sub64_eq_of_lt hdec (le_of_lt hW)
    simp [evaluate_activity, hrx, htx, hsub, hth]
  · intro prev_total prev_idle t h0 hW hdec
    have hsub : sub64 t.total prev_total = W64 - (prev_total - t.total) :=
      sub64_eq_of_lt hdec (le_of_lt hW)
    have hpos : 0 < W64 - (prev_total - t.total) := by omega
    simp only [get_cpu_usage, hsub]
    rw [if_pos h0, if_pos hpos]

/-- C5 witness: the amended statement at concrete inputs — stored
network counters (1000, 1000) with a decreased rx reading 0 under the
default config, and stored cpu_total 5000 with a decreased total-tick
reading summing to 4000. -/
theorem C5_wraparound_delta_amended_witness :
    ((evaluate_activity defaultConfig
        { initMonitorState with net_rx_bytes := 1000, net_tx_bytes := 1000 }
        (TimerEvent.net (some (0, 1000)))).2.1 = true) ∧
    ((get_cpu_usage 5000 900 ⟨3000, 0, 0, 1000, 0, 0, 0, 0⟩).1 =
      100 * (((sub64 (W64 - (5000 - (⟨3000, 0, 0, 1000, 0, 0, 0, 0⟩ : CpuTicks).total))
          (sub64 ((⟨3000, 0, 0, 1000, 0, 0, 0, 0⟩ : CpuTicks).idle % W64) 900) : Nat) : ℚ))
        / (((W64 - (5000 - (⟨3000, 0, 0, 1000, 0, 0, 0, 0⟩ : CpuTicks).total) : Nat) : ℚ))) :=
  ⟨C5_wraparound_delta_amended.1 defaultConfig
      { initMonitorState with net_rx_bytes := 1000, net_tx_bytes := 1000 }
      0 1000 (by decide) (by decide) (by decide) (by decide) (by decide),
   C5_wraparound_delta_amended.2 5000 900 ⟨3000, 0, 0, 1000, 0, 0, 0, 0⟩
      (by decide) (by decide) (by decide)⟩

/-- C6: whenever the per-resource evaluation reports activity, the same
check_system_activity call issues a SusiWDogTrigger, sets the activity
flag and resets the inactivity counter to 0. -/
theorem C6_active_verdict_feeds_and_resets (cfg : WatchdogConfig) (st : MonitorState)
    (ev : TimerEvent) (feedOk : Bool)
    (h : (evaluate_activity cfg st ev).2.1 = true) :
    (check_system_activity cfg st ev feedOk).2.1 = [Action.trigger] ∧
    (check_system_activity cfg st ev feedOk).1.inactive_cycles = 0 ∧
    (check_system_activity cfg st ev feedOk).1.activity_flag = true := by
  cases feedOk <;> simp [check_system_activity, h]

/-- C6 witness: end-to-end memory scenario — previous available memory
1000, new reading 3000 (delta 2000 over the default 1024 threshold)
yields activity, an immediate trigger call and a zeroed counter. -/
theorem C6_active_verdict_feeds_and_resets_witness :
    (evaluate_activity defaultConfig
        { initMonitorState with prev_mem_available := 1000, inactive_cycles := 2 }
        (TimerEvent.mem (some 3000))).2.1 = true ∧
    ((check_system_activity defaultConfig
        { initMonitorState with prev_mem_available := 1000, inactive_cycles := 2 }
        (TimerEvent.mem (some 3000)) true).2.1 = [Action.trigger] ∧
     (check_system_activity defaultConfig
        { initMonitorState with prev_mem_available := 1000, inactive_cycles := 2 }
        (TimerEvent.mem (some 3000)) true).1.inactive_cycles = 0 ∧
     (check_system_activity defaultConfig
        { initMonitorState with prev_mem_available := 1000, inactive_cycles := 2 }
        (TimerEvent.mem (some 3000)) true).1.activity_flag = true) :=
  ⟨by decide,
   C6_active_verdict_feeds_and_resets defaultConfig
      { initMonitorState with prev_mem_available := 1000, inactive_cycles := 2 }
      (TimerEvent.mem (some 3000)) true (by decide)⟩

/-- Once g_running is clear the while loop is never re-entered: the rest
of the run changes nothing and issues no device call. -/
theorem run_loop_halted (cfg : WatchdogConfig) (st : LoopState) (evs : List LoopEvent)
    (h : st.g_running = false) : run_loop cfg st evs = (st, []) := by
  induction evs with
  | nil => rfl
  | cons e es ih =>
      have hstep : loop_step cfg st e = (st, []) := by
        unfold loop_step
        rw [if_pos h]
      unfold run_loop at ih ⊢
      rw [List.foldl_cons]
      simpa [hstep] using ih

/-- C3: in timeout cycles with no detected activity, (i) while the
incremented inactivity counter is still ≤ max_inactive_cycles and at
least watchdog_timeout / 2 seconds have passed since the last grace
feed, a trigger call is issued; (ii) within the grace period but before
the half-timeout cadence is due, no device call is made and the loop
keeps running; (iii) the first cycle whose incremented counter exceeds
the maximum clears g_running without any trigger call; (iv) after
g_running is cleared the remainder of the run issues no device call at
all; (v) the final cleanup never stops the hardware watchdog once
g_running is clear, so the process exits (with code 0) leaving the
watchdog armed. -/
theorem C3_grace_feed_then_reboot_pending (cfg : WatchdogConfig) :
    (∀ (st : LoopState) (now : Nat) (ok : Bool),
      st.g_running = true → st.mon.activity_flag = false →
      cfg.watchdog_timeout.toNat / 4 ≤ now - st.last_inactive_check →
      st.mon.inactive_cycles + 1 ≤ cfg.max_inactive_cycles →
      cfg.watchdog_timeout.toNat / 2 ≤ now - st.last_grace_feed →
      (loop_step cfg st (LoopEvent.timeout now ok)).2 = [Action.trigger]) ∧
    (∀ (st : LoopState) (now : Nat) (ok : Bool),
      st.g_running = true → st.mon.activity_flag = false →
      cfg.watchdog_timeout.toNat / 4 ≤ now - st.last_inactive_check →
      st.mon.inactive_cycles + 1 ≤ cfg.max_inactive_cycles →
      now - st.last_grace_feed < cfg.watchdog_timeout.toNat / 2 →
      (loop_step cfg st (LoopEvent.timeout now ok)).2 = [] ∧
      (loop_step cfg st (LoopEvent.timeout now ok)).1.g_running = true) ∧
    (∀ (st : LoopState) (now : Nat) (ok : Bool),
      st.g_running = true → st.mon.activity_flag = false →
      cfg.watchdog_timeout.toNat / 4 ≤ now - st.last_inactive_check →
      cfg.max_inactive_cycles < st.mon.inactive_cycles + 1 →
      (loop_step cfg st (LoopEvent.timeout now ok)).1.g_running = false ∧
      (loop_step cfg st (LoopEvent.timeout now ok)).2 = []) ∧
    (∀ (st : LoopState) (evs : List LoopEvent),
      st.g_running = false → run_loop cfg st evs = (st, [])) ∧
    (∀ st : LoopState, st.g_running = false →
      main_cleanup st = [] ∧ main_return_code = 0) := by
    refine ⟨?_, ?_, ?_, ?_, ?_⟩
    · intro st now ok hrun hact hdue hmax hcad
      cases ok <;>
        simp [loop_step, hrun, hact, hdue, hmax, hcad]
    · intro st now ok hrun hact hdue hmax hcad
      constructor <;>
        simp [loop_step, hrun, hact, hdue, hmax, not_le.mpr hcad]
    · intro st now ok hrun hact hdue hmax
      constructor <;>
        simp [loop_step, hrun, hact, hdue, not_le.mpr hmax]
    · intro st evs h
      exact run_loop_halted cfg st evs h
    · intro st h
      refine ⟨?_, rfl⟩
      unfold main_cleanup
      rw [if_neg (by rw [h]; exact Bool.false_ne_true)]

/-- C3 witness: the statement at the default configuration (timeout 60,
so quarter cadence 15 and half cadence 30, max 3 inactive cycles): a
grace feed at time 30 from the initial loop state; no call at time 15
when the half cadence is not yet due; the reboot-pending transition when
the counter is already 3; inertness of a halted run on a further signal
event; and the cleanup of a halted state. -/
theorem C3_grace_feed_then_reboot_pending_witness :
    ((loop_step defaultConfig initLoopState (LoopEvent.timeout 30 true)).2
        = [Action.trigger]) ∧
    ((loop_step defaultConfig
        { initLoopState with last_grace_feed := 20 }
        (LoopEvent.timeout 15 true)).2 = [] ∧
     (loop_step defaultConfig
        { initLoopState with last_grace_feed := 20 }
        (LoopEvent.timeout 15 true)).1.g_running = true) ∧
    ((loop_step defaultConfig
        { initLoopState with mon := { initMonitorState with inactive_cycles := 3 } }
        (LoopEvent.timeout 15 true)).1.g_running = false ∧
     (loop_step defaultConfig
        { initLoopState with mon := { initMonitorState with inactive_cycles := 3 } }
        (LoopEvent.timeout 15 true)).2 = []) ∧
    (run_loop defaultConfig { initLoopState with g_running := false } [LoopEvent.sigTerm]
        = ({ initLoopState with g_running := false }, [])) ∧
    (main_cleanup { initLoopState with g_running := false } = [] ∧
     main_return_code = 0) :=
  ⟨(C3_grace_feed_then_reboot_pending defaultConfig).1 initLoopState 30 true
      rfl rfl (by decide) (by decide) (by decide),
   (C3_grace_feed_then_reboot_pending defaultConfig).2.1
      { initLoopState with last_grace_feed := 20 } 15 true
      rfl rfl (by decide) (by decide) (by decide),
   (C3_grace_feed_then_reboot_pending defaultConfig).2.2.1
      { initLoopState with mon := { initMonitorState with inactive_cycles := 3 } } 15 true
      rfl rfl (by decide) (by decide),
   (C3_grace_feed_then_reboot_pending defaultConfig).2.2.2.1
      { initLoopState with g_running := false } [LoopEvent.sigTerm] rfl,
   (C3_grace_feed_then_reboot_pending defaultConfig).2.2.2.2
      { initLoopState with g_running := false } rfl⟩

/-- The watchdog-timeout clamp never touches the CPU thresholds and
keeps every warning already recorded. -/
theorem clamp_watchdog_timeout_fields (p : WatchdogConfig × List Warn) :
    (clamp_watchdog_timeout p).1.cpu_threshold = p.1.cpu_threshold ∧
    (clamp_watchdog_timeout p).1.max_cpu_threshold = p.1.max_cpu_threshold ∧
    ∀ w : Warn, w ∈ p.2 → w ∈ (clamp_watchdog_timeout p).2 := by
  unfold clamp_watchdog_timeout
  split_ifs
  · exact ⟨rfl, rfl, fun w hw => List.mem_append_left _ hw⟩
  · exact ⟨rfl, rfl, fun w hw => hw⟩

/-- The max-inactive-cycles clamp never touches the CPU thresholds and
keeps every warning already recorded. -/
theorem clamp_max_inactive_fields (p : WatchdogConfig × List Warn) :
    (clamp_max_inactive p).1.cpu_threshold = p.1.cpu_threshold ∧
    (clamp_max_inactive p).1.max_cpu_threshold = p.1.max_cpu_threshold ∧
    ∀ w : Warn, w ∈ p.2 → w ∈ (clamp_max_inactive p).2 := by
  unfold clamp_max_inactive
  split_ifs
  · exact ⟨rfl, rfl, fun w hw => List.mem_append_left _ hw⟩
  · exact ⟨rfl, rfl, fun w hw => hw⟩

/-- When the max CPU threshold is ≤ the low threshold, the raise step
sets it to low + 50, leaves the low threshold unchanged and records the
low-vs-max warning. -/
theorem raise_max_cpu_of_le (p : WatchdogConfig × List Warn)
    (h : p.1.max_cpu_threshold ≤ p.1.cpu_threshold) :
    (raise_max_cpu p).1.max_cpu_threshold = p.1.cpu_threshold + 50 ∧
    (raise_max_cpu p).1.cpu_threshold = p.1.cpu_threshold ∧
    Warn.maxCpuNotAboveMin ∈ (raise_max_cpu p).2 := by
  unfold raise_max_cpu
  rw [if_pos h]
  exact ⟨rfl, rfl, List.mem_append_right _ (List.mem_singleton.mpr rfl)⟩

/-- The 100% clamp takes the max CPU threshold to min of itself and 100,
leaves the low threshold unchanged and keeps every warning already
recorded. -/
theorem clamp_max_cpu_100_fields (p : WatchdogConfig × List Warn) :
    (clamp_max_cpu_100 p).1.cpu_threshold = p.1.cpu_threshold ∧
    (clamp_max_cpu_100 p).1.max_cpu_threshold = min p.1.max_cpu_threshold 100 ∧
    ∀ w : Warn, w ∈ p.2 → w ∈ (clamp_max_cpu_100 p).2 := by
  unfold clamp_max_cpu_100
  split_ifs with hc
  · exact ⟨rfl, (min_eq_right (le_of_lt hc)).symm, fun w hw => List.mem_append_left _ hw⟩
  · exact ⟨rfl, (min_eq_left (not_lt.mp hc)).symm, fun w hw => hw⟩

/-- The CPU-interval clamp never touches the CPU thresholds and keeps
every warning already recorded. -/
theorem clamp_cpu_interval_fields (p : WatchdogConfig × List Warn) :
    (clamp_cpu_interval p).1.cpu_threshold = p.1.cpu_threshold ∧
    (clamp_cpu_interval p).1.max_cpu_threshold = p.1.max_cpu_threshold ∧
    ∀ w : Warn, w ∈ p.2 → w ∈ (clamp_cpu_interval p).2 := by
  unfold clamp_cpu_interval
  split_ifs
  · exact ⟨rfl, rfl, fun w hw => List.mem_append_left _ hw⟩
  · exact ⟨rfl, rfl, fun w hw => hw⟩

/-- The memory-interval clamp never touches the CPU thresholds and keeps
every warning already recorded. -/
theorem clamp_mem_interval_fields (p : WatchdogConfig × List Warn) :
    (clamp_mem_interval p).1.cpu_threshold = p.1.cpu_threshold ∧
    (clamp_mem_interval p).1.max_cpu_threshold = p.1.max_cpu_threshold ∧
    ∀ w : Warn, w ∈ p.2 → w ∈ (clamp_mem_interval p).2 := by
  unfold clamp_mem_interval
  split_ifs
  · exact ⟨rfl, rfl, fun w hw => List.mem_append_left _ hw⟩
  · exact ⟨rfl, rfl, fun w hw => hw⟩

/-- The network-interval clamp never touches the CPU thresholds and
keeps every warning already recorded. -/
theorem clamp_net_interval_fields (p : WatchdogConfig × List Warn) :
    (clamp_net_interval p).1.cpu_threshold = p.1.cpu_threshold ∧
    (clamp_net_interval p).1.max_cpu_threshold = p.1.max_cpu_threshold ∧
    ∀ w : Warn, w ∈ p.2 → w ∈ (clamp_net_interval p).2 := by
  unfold clamp_net_interval
  split_ifs
  · exact ⟨rfl, rfl, fun w hw => List.mem_append_left _ hw⟩
  · exact ⟨rfl, rfl, fun w hw => hw⟩

/-- Combined effect of the validation tail on the CPU thresholds when
the configured max is ≤ the configured low: the low threshold survives
unchanged, the max becomes min (low + 50) 100 and the low-vs-max warning
is among the emitted warnings. -/
theorem validateConfig_cpu_fields (c : WatchdogConfig)
    (h : c.max_cpu_threshold ≤ c.cpu_threshold) :
    (validateConfig c).1.cpu_threshold = c.cpu_threshold ∧
    (validateConfig c).1.max_cpu_threshold = min (c.cpu_threshold + 50) 100 ∧
    Warn.maxCpuNotAboveMin ∈ (validateConfig c).2 := by
  obtain ⟨t1, t2, _⟩ := clamp_watchdog_timeout_fields (c, [])
  obtain ⟨i1, i2, _⟩ := clamp_max_inactive_fields (clamp_watchdog_timeout (c, []))
  have hq2 : (clamp_max_inactive (clamp_watchdog_timeout (c, []))).1.max_cpu_threshold ≤
      (clamp_max_inactive (clamp_watchdog_timeout (c, []))).1.cpu_threshold := by
    rw [i1, t1, i2, t2]; exact h
  obtain ⟨r1, r2, r3⟩ := raise_max_cpu_of_le _ hq2
  obtain ⟨m1, m2, m3⟩ := clamp_max_cpu_100_fields
    (raise_max_cpu (clamp_max_inactive (clamp_watchdog_timeout (c, []))))
  obtain ⟨u1, u2, u3⟩ := clamp_cpu_interval_fields
    (clamp_max_cpu_100 (raise_max_cpu (clamp_max_inactive (clamp_watchdog_timeout (c, [])))))
  obtain ⟨v1, v2, v3⟩ := clamp_mem_interval_fields
    (clamp_cpu_interval (clamp_max_cpu_100 (raise_max_cpu (clamp_max_inactive
      (clamp_watchdog_timeout (c, []))))))
  obtain ⟨w1, w2, w3⟩ := clamp_net_interval_fields
    (clamp_mem_interval (clamp_cpu_interval (clamp_max_cpu_100 (raise_max_cpu
      (clamp_max_inactive (clamp_watchdog_timeout (c, [])))))))
  refine ⟨?_, ?_, ?_⟩
  · show (validateConfig c).1.cpu_threshold = c.cpu_threshold
    unfold validateConfig
    rw [w1, v1, u1, m1, r2, i1, t1]
  · unfold validateConfig
    rw [w2, v2, u2, m2, r1, i1, t1]
  · unfold validateConfig
    exact w3 _ (v3 _ (u3 _ (m3 _ r3)))

/-- C7 counterexample: with cpu_threshold = 60 and max_cpu_threshold =
50 the auto-correction first sets max_cpu_threshold to 60 + 50 = 110,
but the following validation step clamps it to 100 — so classification
does not use the claimed low + 50 value. -/
theorem C7_autocorrect_clamped_at_100 :
    (validateConfig badCpuConfig).1.max_cpu_threshold = 100 ∧
    ((100 : ℚ) ≠ 60 + 50) := by
  constructor
  · norm_num [validateConfig, badCpuConfig, defaultConfig, clamp_watchdog_timeout,
      clamp_max_inactive, raise_max_cpu, clamp_max_cpu_100, clamp_cpu_interval,
      clamp_mem_interval, clamp_net_interval]
  · norm_num

/-- C7 amended: when the configured max CPU threshold is ≤ the low
threshold, validation emits the low-vs-max warning and sets the max
threshold to low + 50, clamped at 100 by the following step — i.e. to
min (low + 50) 100; the low threshold is unchanged, and subsequent
classification uses the clamped value: strictly above it is Critical,
while strictly above the low threshold and at most the clamped value is
Active. -/
theorem C7_autocorrect_amended (c : WatchdogConfig)
    (h : c.max_cpu_threshold ≤ c.cpu_threshold) :
    ((validateConfig c).1.max_cpu_threshold = min (c.cpu_threshold + 50) 100) ∧
    (Warn.maxCpuNotAboveMin ∈ (validateConfig c).2) ∧
    ((validateConfig c).1.cpu_threshold = c.cpu_threshold) ∧
    (∀ pct : ℚ, min (c.cpu_threshold + 50) 100 < pct →
      classify_cpu (validateConfig c).1 pct = CpuVerdict.critical) ∧
    (∀ pct : ℚ, c.cpu_threshold < pct → pct ≤ min (c.cpu_threshold + 50) 100 →
      classify_cpu (validateConfig c).1 pct = CpuVerdict.active) := by
  obtain ⟨hlow, hmin, hwarn⟩ := validateConfig_cpu_fields c h
  refine ⟨hmin, hwarn, hlow, ?_, ?_⟩
  · intro pct hp
    unfold classify_cpu
    rw [hmin, if_pos hp]
  · intro pct hp1 hp2
    unfold classify_cpu
    rw [hmin, if_neg (not_lt.mpr hp2), hlow, if_pos hp1]

/-- C7 witness: the amended statement at badCpuConfig (low 60, max 50;
clamped corrected value min (60 + 50) 100 = 100), with the
classification conclusions instantiated at 101% and 90%. -/
theorem C7_autocorrect_amended_witness :
    ((validateConfig badCpuConfig).1.max_cpu_threshold
        = min (badCpuConfig.cpu_threshold + 50) 100) ∧
    (Warn.maxCpuNotAboveMin ∈ (validateConfig badCpuConfig).2) ∧
    (classify_cpu (validateConfig badCpuConfig).1 101 = CpuVerdict.critical) ∧
    (classify_cpu (validateConfig badCpuConfig).1 90 = CpuVerdict.active) :=
  ⟨(C7_autocorrect_amended badCpuConfig
      (by norm_num [badCpuConfig, defaultConfig])).1,
   (C7_autocorrect_amended badCpuConfig
      (by norm_num [badCpuConfig, defaultConfig])).2.1,
   (C7_autocorrect_amended badCpuConfig
      (by norm_num [badCpuConfig, defaultConfig])).2.2.2.1 101
      (by norm_num [badCpuConfig, defaultConfig]),
   (C7_autocorrect_amended badCpuConfig
      (by norm_num [badCpuConfig, defaultConfig])).2.2.2.2 90
      (by norm_num [badCpuConfig, defaultConfig])
      (by norm_num [badCpuConfig, defaultConfig])⟩

/-- C8: requests to an unknown route and requests with an unsupported
method are answered with a JSON error body, but with HTTP status 200:
the 404/405 values assigned to ret in requestHandler are dead stores,
overwritten because every JSON response is queued with MHD_HTTP_OK. -/
theorem C8_unknown_route_and_method_get_200 :
    ((requestHandler initHttpState "GET" "/api/unknown" noParams true).2
        = ⟨200, HttpBody.jsonError "Unknown endpoint"⟩) ∧
    ((requestHandler initHttpState "POST" "/api/unknown" noParams true).2
        = ⟨200, HttpBody.jsonError "Unknown endpoint"⟩) ∧
    ((requestHandler initHttpState "DELETE" "/api/status" noParams true).2
        = ⟨200, HttpBody.jsonError "Method not allowed"⟩) ∧
    ((requestHandler initHttpState "GET" "/api/unknown" noParams true).2.status ≠ 404) ∧
    ((requestHandler initHttpState "DELETE" "/api/status" noParams true).2.status ≠ 405) := by
  decide

/-- C9: whenever the stored previous total-tick value is nonzero, the
computed busy percentage is 100 × (totalDiff − idleDiff) / totalDiff
(stated here for readings where the monotone counters did not decrease,
so the unsigned differences are the mathematical ones), and a zero
totalDiff short-circuits to 0% without dividing; the embedded
computation is a total function of the tick inputs. -/
theorem C9_cpu_percent_formula (prev_total prev_idle : Nat) (t : CpuTicks)
    (h0 : 0 < prev_total)
    (hmono : prev_total ≤ t.total)
    (hidle : prev_idle ≤ t.idle % W64)
    (hle : t.idle % W64 - prev_idle ≤ t.total - prev_total) :
    (t.total - prev_total ≠ 0 →
      (get_cpu_usage prev_total prev_idle t).1 =
        100 * ((((t.total - prev_total) - (t.idle % W64 - prev_idle) : Nat) : ℚ))
          / (((t.total - prev_total : Nat) : ℚ))) ∧
    (t.total - prev_total = 0 →
      (get_cpu_usage prev_total prev_idle t).1 = 0) := by
  have htW : t.total < W64 := total_lt_W64 t
  have h1 : sub64 t.total prev_total = t.total - prev_total := sub64_eq_of_le hmono htW
  have h2 : sub64 (t.idle % W64) prev_idle = t.idle % W64 - prev_idle :=
    sub64_eq_of_le hidle (Nat.mod_lt _ (by norm_num [W64]))
  have h3 : sub64 (t.total - prev_total) (t.idle % W64 - prev_idle)
      = (t.total - prev_total) - (t.idle % W64 - prev_idle) :=
    sub64_eq_of_le hle (by omega)
  constructor
  · intro hne
    simp only [get_cpu_usage, h1, h2, h3]
    rw [if_pos h0, if_pos (Nat.pos_of_ne_zero hne)]
  · intro heq
    simp only [get_cpu_usage, h1, h2]
    rw [if_pos h0, if_neg (by omega)]

/-- C9 witness: a normal reading (prev 100/50, ticks totalling 200 with
idle 80, so totalDiff 100 and idleDiff 30 give 70%), and a repeated
reading with totalDiff 0 giving 0%. -/
theorem C9_cpu_percent_formula_witness :
    ((get_cpu_usage 100 50 ⟨40, 0, 80, 80, 0, 0, 0, 0⟩).1 =
        100 * ((((⟨40, 0, 80, 80, 0, 0, 0, 0⟩ : CpuTicks).total - 100)
            - ((⟨40, 0, 80, 80, 0, 0, 0, 0⟩ : CpuTicks).idle % W64 - 50) : Nat) : ℚ)
          / ((((⟨40, 0, 80, 80, 0, 0, 0, 0⟩ : CpuTicks).total - 100 : Nat) : ℚ))) ∧
    ((get_cpu_usage 100 80 ⟨10, 0, 10, 80, 0, 0, 0, 0⟩).1 = 0) :=
  ⟨(C9_cpu_percent_formula 100 50 ⟨40, 0, 80, 80, 0, 0, 0, 0⟩
      (by decide) (by decide) (by decide) (by decide)).1 (by decide),
   (C9_cpu_percent_formula 100 80 ⟨10, 0, 10, 80, 0, 0, 0, 0⟩
      (by decide) (by decide) (by decide) (by decide)).2 (by decide)⟩

/-- C10: a POST /api/start received while the watchdog is not running
stores every supplied delay/event/reset/type query parameter into the
service configuration before the device start is attempted, and when the
start call fails the running flag stays false while the stored
parameters keep the new values — the configuration change is not rolled
back on error. -/
theorem C10_start_params_not_rolled_back (st : HttpState) (params : StartParams)
    (deviceOk : Bool) (h : st.watchdogRunning = false) :
    ((requestHandler st "POST" "/api/start" params deviceOk).1.delayTime
        = updParam st.delayTime params.delay) ∧
    ((requestHandler st "POST" "/api/start" params deviceOk).1.eventTime
        = updParam st.eventTime params.event) ∧
    ((requestHandler st "POST" "/api/start" params deviceOk).1.resetTime
        = updParam st.resetTime params.reset) ∧
    ((requestHandler st "POST" "/api/start" params deviceOk).1.eventType
        = updParam st.eventType params.type) ∧
    (deviceOk = false →
      (requestHandler st "POST" "/api/start" params deviceOk).1.watchdogRunning = false) := by
  cases deviceOk <;> simp [requestHandler, h]

/-- C10 witness: the statement at the default service state with all
four parameters supplied (15000/6000/2000/1) and a failing device start:
the parameters are stored, the running flag stays false. -/
theorem C10_start_params_not_rolled_back_witness :
    ((requestHandler initHttpState "POST" "/api/start"
        ⟨some 15000, some 6000, some 2000, some 1⟩ false).1.delayTime
        = updParam initHttpState.delayTime (some 15000)) ∧
    ((requestHandler initHttpState "POST" "/api/start"
        ⟨some 15000, some 6000, some 2000, some 1⟩ false).1.eventTime
        = updParam initHttpState.eventTime (some 6000)) ∧
    ((requestHandler initHttpState "POST" "/api/start"
        ⟨some 15000, some 6000, some 2000, some 1⟩ false).1.resetTime
        = updParam initHttpState.resetTime (some 2000)) ∧
    ((requestHandler initHttpState "POST" "/api/start"
        ⟨some 15000, some 6000, some 2000, some 1⟩ false).1.eventType
        = updParam initHttpState.eventType (some 1)) ∧
    ((requestHandler initHttpState "POST" "/api/start"
        ⟨some 15000, some 6000, some 2000, some 1⟩ false).1.watchdogRunning = false) := by
  have h := C10_start_params_not_rolled_back initHttpState
    ⟨some 15000, some 6000, some 2000, some 1⟩ false rfl
  exact ⟨h.1, h.2.1, h.2.2.1, h.2.2.2.1, h.2.2.2.2 rfl⟩

end Ark
